import Mathlib

/-!
Verification of the HomeCast relay fabric (server/homecast) against its
natural-language specification.

The Python source is shallowly embedded: every database table becomes a
list of rows, every repository query becomes a pure function on those
lists, and the stateful connection managers become explicit
state-passing functions.  Timestamps are integers (seconds); the
outcome of a blocking wait is passed in as an explicit parameter
describing what, if anything, arrived before the deadline.
-/

namespace HomeCast

/-! ## Identifiers and time -/
abbrev UserId := Nat

abbrev DeviceId := String

abbrev InstanceId := String

abbrev SessionId := Nat

abbrev Time := Int

/-! ## Data model (models.py) -/

/-- `models.SessionType`: the `session_type` column values. -/
inductive SessionType where
  | device
  | web
deriving DecidableEq, Repr

/-- A row of the `sessions` table (`models.Session`). -/
structure Session where
  id : SessionId
  user_id : UserId
  instance_id : InstanceId
  session_type : SessionType
  device_id : Option DeviceId
  name : Option String
  last_heartbeat : Time
deriving DecidableEq, Repr

/-- A row of the `topic_slots` table (`models.TopicSlot`). -/
structure TopicSlot where
  slot_name : String
  instance_id : Option InstanceId
  claimed_at : Option Time
  last_heartbeat : Option Time
deriving DecidableEq, Repr

/-- A row of the `devices` table of the older `Device` data model.  The
`homecast.models.db.models` module no longer defines this class, but
`pubsub_router.send_request` still queries it via
`DeviceRepository.find_by_device_id` (fields per
`homekit_mcp` and `device_repository.py`: `device_id`, `user_id`,
`status`, `instance_id`). -/
structure DeviceRow where
  device_id : DeviceId
  user_id : UserId
  status : String
  instance_id : Option InstanceId
deriving DecidableEq, Repr

/-! ## Session repository (session_repository.py) -/

/-- `STALE_SESSION_TIMEOUT_SECONDS = 120`. -/
def STALE_SESSION_TIMEOUT_SECONDS : Int := 120

/-- `SessionRepository.has_web_listeners`: first row with matching
`user_id`, `session_type == WEB` and `last_heartbeat > cutoff`
(`limit(1)` + `first() is not None`). -/
def has_web_listeners (db : List Session) (uid : UserId) (now : Time) : Bool :=
  let cutoff := now - STALE_SESSION_TIMEOUT_SECONDS
  (db.find? (fun s =>
    s.user_id == uid && s.session_type == SessionType.web
      && decide (cutoff < s.last_heartbeat))).isSome

/-- `SessionRepository.get_device_session`: first row with this
`device_id`, optionally restricted to non-stale heartbeats. -/
def get_device_session (db : List Session) (d : DeviceId)
    (include_stale : Bool) (now : Time) : Option Session :=
  db.find? (fun s =>
    s.device_id == some d &&
      (include_stale || decide (now - STALE_SESSION_TIMEOUT_SECONDS < s.last_heartbeat)))

/-- Result of `SessionRepository.create_session`: the updated table and
the row returned to the caller. -/
structure CreateSessionResult where
  db : List Session
  created : Session
deriving Repr

/-- The in-place refresh `create_session` performs on an existing
device row: `instance_id`, `name` (kept when the new one is None) and
`last_heartbeat` are written; everything else is untouched. -/
def refreshSessionRow (existing : Session) (iid : InstanceId)
    (name : Option String) (now : Time) : Session :=
  { existing with
      instance_id := iid
      name := (match name with | some n => some n | none => existing.name)
      last_heartbeat := now }

/-- `SessionRepository.create_session`: for device sessions, update the
existing row with the same `device_id` if any; otherwise insert a new
row.  `fresh_id` stands for the generated primary key of a new row. -/
def create_session (db : List Session) (fresh_id : SessionId)
    (uid : UserId) (iid : InstanceId) (stype : SessionType)
    (device_id : Option DeviceId) (name : Option String) (now : Time) :
    CreateSessionResult :=
  let fallback : CreateSessionResult :=
    let s : Session :=
      { id := fresh_id, user_id := uid, instance_id := iid,
        session_type := stype, device_id := device_id, name := name,
        last_heartbeat := now }
    { db := db ++ [s], created := s }
  match device_id with
  | none => fallback
  | some d =>
    match get_device_session db d true now with
    | none => fallback
    | some existing =>
      let updated := refreshSessionRow existing iid name now
      { db := db.map (fun s => if s.id = existing.id then updated else s),
        created := updated }

/-- `SessionRepository.delete_session` (delete by primary key). -/
def delete_session (db : List Session) (sid : SessionId) : List Session :=
  db.filter (fun s => s.id ≠ sid)

/-- `SessionRepository.delete_by_device_id`. -/
def delete_by_device_id (db : List Session) (d : DeviceId) : List Session :=
  db.filter (fun s => ¬ s.device_id == some d)

/-! ## Slot registry (topic_slot_repository.py) -/

/-- `SLOT_TIMEOUT = timedelta(minutes=5)`. -/
def SLOT_TIMEOUT : Int := 300

/-- The SQL filter of step 2 of `claim_slot`:
`instance_id IS NULL OR last_heartbeat < stale_threshold`.
A NULL `last_heartbeat` does not satisfy the comparison in SQL. -/
def slotFreeOrStale (threshold : Time) (s : TopicSlot) : Bool :=
  s.instance_id.isNone ||
    (match s.last_heartbeat with
     | some hb => decide (hb < threshold)
     | none => false)

/-- Alphabet of `_generate_slot_name`: lowercase ASCII plus digits. -/
def slotAlphabet : List Char := "abcdefghijklmnopqrstuvwxyz0123456789".data

/-- A string `_generate_slot_name` can produce: 4 characters drawn from
`slotAlphabet`. -/
def isSlotToken (s : String) : Bool :=
  s.length == 4 && s.data.all (fun c => slotAlphabet.contains c)

/-- Write back one row (matched by primary key `slot_name`), as the ORM
does on `session.add` + `commit` of a fetched row. -/
def updateSlot (db : List TopicSlot) (s : TopicSlot) : List TopicSlot :=
  db.map (fun t => if t.slot_name = s.slot_name then s else t)

/-- Result of `TopicSlotRepository.claim_slot`. -/
structure ClaimResult where
  db : List TopicSlot
  slot : TopicSlot
deriving Repr

/-- `TopicSlotRepository.claim_slot`.  The stream of random tokens that
`_generate_slot_name` would produce is passed in as `candidates`; the
collision-retry loop takes the first candidate whose primary key is not
already taken (`while session.get(TopicSlot, slot_name)`).  `none` means
the candidate stream was exhausted (the loop in the source is
unbounded). -/
def claim_slot (db : List TopicSlot) (iid : InstanceId) (now : Time)
    (candidates : List String) : Option ClaimResult :=
  match db.find? (fun s => s.instance_id == some iid) with
  | some existing =>
    let refreshed := { existing with claimed_at := some now, last_heartbeat := some now }
    some { db := updateSlot db refreshed, slot := refreshed }
  | none =>
    match db.find? (slotFreeOrStale (now - SLOT_TIMEOUT)) with
    | some stale =>
      let taken :=
        { stale with
            instance_id := some iid
            claimed_at := some now
            last_heartbeat := some now }
      some { db := updateSlot db taken, slot := taken }
    | none =>
      match candidates.find? (fun n => (db.find? (fun s => s.slot_name == n)).isNone) with
      | some fresh =>
        let new_slot : TopicSlot :=
          { slot_name := fresh, instance_id := some iid,
            claimed_at := some now, last_heartbeat := some now }
        some { db := db ++ [new_slot], slot := new_slot }
      | none => none

/-- `TopicSlotRepository.release_slot`. -/
def release_slot (db : List TopicSlot) (iid : InstanceId) : List TopicSlot :=
  match db.find? (fun s => s.instance_id == some iid) with
  | some slot =>
    updateSlot db { slot with instance_id := none, last_heartbeat := none }
  | none => db

/-- `TopicSlotRepository.get_slot_for_instance`: first row whose
`instance_id` matches; note there is no staleness filter here. -/
def get_slot_for_instance (db : List TopicSlot) (iid : InstanceId) :
    Option TopicSlot :=
  db.find? (fun s => s.instance_id == some iid)

/-- Slot table with a row already owned by instance `i1`. -/
def slotDb1 : List TopicSlot := [⟨"ab12", some "i1", some 0, some 900⟩]

/-- Slot table with one released (unowned) row. -/
def slotDb2 : List TopicSlot := [⟨"cd34", none, none, none⟩]

/-- Slot table whose only row is freshly owned by another instance. -/
def slotDb3 : List TopicSlot := [⟨"ef56", some "i1", some 1000, some 1000⟩]

/-! ## Connection Manager (websocket/handler.py) -/

/-- What a pending request's one-slot reply queue may carry: either the
response payload or the response's error object. -/
inductive QueueResult where
  | payload (p : String)
  | err (code message : String)
deriving DecidableEq, Repr

/-- `PendingRequest` of handler.py; `slot` is the content of its
`queue.Queue(maxsize=1)`. -/
structure PendingRequest where
  id : String
  device_id : DeviceId
  action : String
  slot : Option QueueResult
deriving DecidableEq, Repr

/-- Envelope of a frame received on the agent socket (PROTOCOL.md):
`id`, `type`, `action`, `payload`, `error`. -/
structure DeviceFrame where
  id : Option String
  type : String
  action : Option String
  payload : String
  error : Option (String × String)
deriving DecidableEq, Repr

/-- The per-process `ConnectionManager` state a `send_request` call
touches: the agent map and the pending-request map. -/
structure SendState where
  connections : List (DeviceId × UserId)
  pending : List (String × PendingRequest)
deriving Repr

/-- What the caller of `ConnectionManager.send_request` observes. -/
inductive SendOutcome where
  | notConnected                       -- ValueError: device not connected
  | payload (p : String)
  | errorResp (code message : String)  -- ValueError from an error response
  | timeout                            -- TimeoutError after the deadline
deriving DecidableEq, Repr

/-- `ConnectionManager.send_request`.  `request_id` stands for the
generated `uuid4`; `arrival` is what, if anything, lands in the one-slot
queue before the deadline expires.  The pending entry is installed
before the socket write and popped in the `finally` block on every
path out of the call. -/
def send_request (st : SendState) (device_id action request_id : String)
    (arrival : Option QueueResult) : SendOutcome × SendState :=
  if (st.connections.find? (fun c => c.1 == device_id)).isNone then
    (SendOutcome.notConnected, st)
  else
    let installed := st.pending ++
      [(request_id,
        { id := request_id, device_id := device_id, action := action, slot := none })]
    let outcome :=
      match arrival with
      | none => SendOutcome.timeout
      | some (QueueResult.err c m) => SendOutcome.errorResp c m
      | some (QueueResult.payload p) => SendOutcome.payload p
    (outcome, { st with pending := installed.filter (fun kv => kv.1 != request_id) })

/-- Dictionary lookup `self.pending_requests[msg_id]`. -/
def lookupPending (pending : List (String × PendingRequest)) (i : String) :
    Option PendingRequest :=
  (pending.find? (fun kv => kv.1 == i)).map (fun kv => kv.2)

/-- `ConnectionManager.handle_message`, `msg_type == "response"` branch:
deliver the error or the payload into the pending request's one-slot
queue; an unknown `id` is logged and dropped, a full queue (duplicate
response) is logged and dropped. -/
def handle_response (pending : List (String × PendingRequest))
    (msg : DeviceFrame) : List (String × PendingRequest) :=
  match msg.id with
  | none => pending
  | some i =>
    match lookupPending pending i with
    | none => pending
    | some pr =>
      let result :=
        match msg.error with
        | some (c, m) => QueueResult.err c m
        | none => QueueResult.payload msg.payload
      match pr.slot with
      | none =>
        pending.map (fun kv =>
          if kv.1 = i then (kv.1, { pr with slot := some result }) else kv)
      | some _ => pending

/-! ## Cross-Instance Router (websocket/pubsub_router.py) -/

/-- The tables `PubSubRouter.send_request` consults. -/
structure RouterDb where
  devices : List DeviceRow
  slots : List TopicSlot
deriving Repr

/-- What a `PubSubRouter.send_request` call observes. -/
inductive RouteOutcome where
  | localHandled (device_id action : String)  -- delegated to the local handler
  | notConnectedError     -- ValueError: device missing or not online
  | noInstanceError       -- ValueError: device has no instance_id
  | noSlotError           -- ValueError: target instance has no active slot
  | publishFailed         -- ValueError: failed to route to slot
  | remotePayload (p : String)
  | remoteError (message : String)
  | remoteTimeout         -- TimeoutError after the deadline
deriving DecidableEq, Repr

/-- `PubSubRouter.send_request` on an enabled router: look the device up
in the `devices` table (`DeviceRepository.find_by_device_id`), require
`status == "online"`, handle locally when the owning instance is this
one, otherwise resolve the target's slot (no staleness filter), install
the correlation in `_pending_requests`, publish, await the future, and
pop the correlation in the `finally` block.  `publishOk` is whether the
5-second bus publish succeeds; `arrival` is what, if anything, resolves
the future before the deadline. -/
def pubsub_send_request (db : RouterDb) (self_instance : InstanceId)
    (device_id action correlation_id : String) (pending : List String)
    (publishOk : Bool) (arrival : Option QueueResult) :
    RouteOutcome × List String :=
  match db.devices.find? (fun d => d.device_id == device_id) with
  | none => (RouteOutcome.notConnectedError, pending)
  | some dev =>
    if dev.status ≠ "online" then (RouteOutcome.notConnectedError, pending)
    else
      match dev.instance_id with
      | none => (RouteOutcome.noInstanceError, pending)
      | some target =>
        if target = self_instance then
          (RouteOutcome.localHandled device_id action, pending)
        else
          match get_slot_for_instance db.slots target with
          | none => (RouteOutcome.noSlotError, pending)
          | some _ =>
            let installed := pending ++ [correlation_id]
            if publishOk then
              let outcome :=
                match arrival with
                | none => RouteOutcome.remoteTimeout
                | some (QueueResult.payload p) => RouteOutcome.remotePayload p
                | some (QueueResult.err _ m) => RouteOutcome.remoteError m
              (outcome, installed.filter (fun k => k != correlation_id))
            else
              (RouteOutcome.publishFailed, installed.filter (fun k => k != correlation_id))

/-- One future of the router's `_pending_requests` map; `done` once a
result has been set. -/
structure PendingFuture where
  correlation_id : String
  done : Bool
deriving DecidableEq, Repr

/-- `PubSubRouter._handle_message`, `type == "response"` branch: set the
matching future's result once; an unknown correlation or an
already-done future is logged and dropped. -/
def pubsub_handle_response (pending : List PendingFuture)
    (correlation_id : Option String) : List PendingFuture :=
  match correlation_id with
  | none => pending
  | some cid =>
    match pending.find? (fun f => f.correlation_id == cid) with
    | none => pending
    | some f =>
      if f.done then pending
      else pending.map (fun g =>
        if g.correlation_id = cid then { g with done := true } else g)

/-- Concrete `ConnectionManager` state: one connected agent, nothing
pending. -/
def c1State : SendState := ⟨[("mac-1", 7)], []⟩

/-- A response frame whose correlation ID is no longer pending. -/
def c1LateMsg : DeviceFrame := ⟨some "r9", "response", none, "p", none⟩

/-- A pending map whose one request already holds a result. -/
def c1DupPending : List (String × PendingRequest) :=
  [("r2", ⟨"r2", "mac-1", "ping", some (QueueResult.payload "x")⟩)]

/-- A duplicate response frame for the already-answered request. -/
def c1DupMsg : DeviceFrame := ⟨some "r2", "response", none, "q", none⟩

/-- Router tables with one online device owned by a remote instance
that holds an active slot. -/
def c9Db : RouterDb :=
  ⟨[⟨"mac-1", 7, "online", some "instance-B"⟩],
   [⟨"ab12", some "instance-B", some 1000, some 1000⟩]⟩

/-! ## Connect paths and listener notifications
(handler.py `ConnectionManager.connect`, web_clients.py `WebClientManager`) -/

/-- Actions taken on sockets during a connect. -/
inductive SocketEvent where
  | accept
  | close (code : Nat)                        -- close the connecting socket
  | closeOld (device : DeviceId) (code : Nat) -- close a previously held socket
deriving DecidableEq, Repr

/-- Result of `ConnectionManager.connect` on one process: the returned
device (None on auth failure), the updated agent map and sessions
table, and the socket actions performed, in order. -/
structure ConnectResult where
  device : Option (DeviceId × UserId)
  connections : List (DeviceId × UserId)
  sessions : List Session
  socketEvents : List SocketEvent
deriving Repr

/-- `ConnectionManager.connect`: verify the token (close 4001 on
failure), close any previous local socket for the same `device_id` with
4002, replace the map entry, and create or refresh the session row.
`verify` models `verify_token`; `fresh_sid` is the primary key a newly
inserted session row would get. -/
def mgr_connect (verify : String → Option UserId)
    (connections : List (DeviceId × UserId)) (sessions : List Session)
    (fresh_sid : SessionId) (iid : InstanceId) (token : String)
    (device_id : DeviceId) (device_name : Option String) (now : Time) :
    ConnectResult :=
  match verify token with
  | none =>
    { device := none, connections := connections, sessions := sessions,
      socketEvents := [SocketEvent.accept, SocketEvent.close 4001] }
  | some uid =>
    let oldEvents :=
      if (connections.find? (fun c => c.1 == device_id)).isSome then
        [SocketEvent.closeOld device_id 4002]
      else []
    let connections2 :=
      (connections.filter (fun c => c.1 != device_id)) ++ [(device_id, uid)]
    let name :=
      match device_name with
      | some n => n
      | none => "HomeKit Device (" ++ device_id.take 8 ++ ")"
    let cr := create_session sessions fresh_sid uid iid SessionType.device
      (some device_id) (some name) now
    { device := some (device_id, uid), connections := connections2,
      sessions := cr.db,
      socketEvents := SocketEvent.accept :: oldEvents }

/-- `WebClientManager._notify_mac_apps`: write one `listeners_changed`
config frame (payload key `webClientsListening`) on each LOCAL agent
socket belonging to the user.  Nothing is published on the bus. -/
def notify_mac_apps (agentConns : List (DeviceId × UserId)) (uid : UserId)
    (listening : Bool) : List (DeviceId × Bool) :=
  (agentConns.filter (fun c => c.2 == uid)).map (fun c => (c.1, listening))

/-- Result of `WebClientManager.connect` / `disconnect`: the listener
map, sessions table, socket actions, the `listeners_changed` frames
written to local agent sockets, and any bus messages published. -/
structure WebConnectResult where
  client : Option (SessionId × UserId)
  local_clients : List (SessionId × UserId)
  sessions : List Session
  socketEvents : List SocketEvent
  notifications : List (DeviceId × Bool)
  busMessages : List String
deriving Repr

/-- `WebClientManager.connect`: verify the token (close 4001 on
failure), read `has_web_listeners` BEFORE inserting the new session
row, insert the row and the local map entry, and if the user had no
listeners notify the local agents. -/
def web_connect (verify : String → Option UserId)
    (local_clients : List (SessionId × UserId)) (sessions : List Session)
    (agentConns : List (DeviceId × UserId))
    (fresh_sid : SessionId) (iid : InstanceId) (token : String) (now : Time) :
    WebConnectResult :=
  match verify token with
  | none =>
    { client := none, local_clients := local_clients, sessions := sessions,
      socketEvents := [SocketEvent.accept, SocketEvent.close 4001],
      notifications := [], busMessages := [] }
  | some uid =>
    let had := has_web_listeners sessions uid now
    let cr := create_session sessions fresh_sid uid iid SessionType.web
      none (some "Web Browser") now
    let sid := cr.created.id
    { client := some (sid, uid),
      local_clients := local_clients ++ [(sid, uid)],
      sessions := cr.db,
      socketEvents := [SocketEvent.accept],
      notifications := if had then [] else notify_mac_apps agentConns uid true,
      busMessages := [] }

/-- Result of `WebClientManager.disconnect`. -/
structure WebDisconnectResult where
  local_clients : List (SessionId × UserId)
  sessions : List Session
  notifications : List (DeviceId × Bool)
  busMessages : List String
deriving Repr

/-- `WebClientManager.disconnect`: drop the local map entry, delete the
session row, re-query `has_web_listeners`, and if none remain notify
the local agents. -/
def web_disconnect (local_clients : List (SessionId × UserId))
    (sessions : List Session) (agentConns : List (DeviceId × UserId))
    (client : SessionId × UserId) (now : Time) : WebDisconnectResult :=
  let sessions2 := delete_session sessions client.1
  let stillHas := has_web_listeners sessions2 client.2 now
  { local_clients := local_clients.filter (fun c => c.1 != client.1),
    sessions := sessions2,
    notifications :=
      if stillHas then [] else notify_mac_apps agentConns client.2 false,
    busMessages := [] }

/-- Number of map entries held for a device. -/
def countConn (l : List (DeviceId × UserId)) (d : DeviceId) : Nat :=
  (l.filter (fun c => c.1 == d)).length

/-- Number of session rows carrying a device id. -/
def countSessionsFor (db : List Session) (d : DeviceId) : Nat :=
  (db.filter (fun s => s.device_id == some d)).length

/-- Number of `listeners_changed` frames written to a given agent. -/
def countNotif (ns : List (DeviceId × Bool)) (d : DeviceId) : Nat :=
  (ns.filter (fun n => n.1 == d)).length

/-- A verifier rejecting every token. -/
def rejectAllTokens : String → Option UserId := fun _ => none

/-- Agent map of a first process, already holding the agent. -/
def c7ConnsA : List (DeviceId × UserId) := [("mac-1", 7)]

/-- Shared sessions table with the agent's row owned by the first
process. -/
def c7Sessions : List Session :=
  [⟨1, 7, "A", SessionType.device, some "mac-1", some "Mac", 1000⟩]

/-- A verifier accepting token "tok" as user 7. -/
def tokenVerifier7 : String → Option UserId :=
  fun t => if t = "tok" then some 7 else none

/-- A remote process's agent map, holding user 7's only agent. -/
def remoteAgentConns : List (DeviceId × UserId) := [("mac-r", 7)]

/-! ## Claim C3: event pipe -/

/-- The attributes defined on class `PubSubRouter` in pubsub_router.py:
its properties and methods, public and private.  Note there is no
`broadcast_characteristic_update` and no `set_local_device_checker`,
although handler.py calls both on the module-level `router` object. -/
def pubSubRouterAttributes : List String :=
  ["enabled", "instance_id", "slot_name", "connect", "disconnect",
   "set_local_handler", "send_request"]

/-- Effects a `characteristic.updated` event may produce. -/
inductive EventEffect where
  | localBroadcast (uid : UserId) (accessoryId characteristicType : String)
  | busPublish (uid : UserId) (accessoryId characteristicType : String)
deriving DecidableEq, Repr

/-- A Python runtime error surfacing from the handler. -/
inductive PyError where
  | attributeError (attr : String)
deriving DecidableEq, Repr

/-- `ConnectionManager._handle_event`: for `characteristic.updated`
with both identifiers present and the device connected, broadcast to
the local web client hub, then call
`pubsub_router.broadcast_characteristic_update` — a dynamic attribute
access resolved against `pubSubRouterAttributes`.  Returns the effects
performed before any exception, together with the exception if one is
raised. -/
def handle_event (conns : List (DeviceId × UserId)) (device_id : DeviceId)
    (action : Option String) (accessoryId characteristicType : Option String) :
    List EventEffect × Option PyError :=
  if action == some "characteristic.updated" then
    match accessoryId, characteristicType with
    | some a, some c =>
      match conns.find? (fun x => x.1 == device_id) with
      | some conn =>
        let localFanout := [EventEffect.localBroadcast conn.2 a c]
        if pubSubRouterAttributes.contains "broadcast_characteristic_update" then
          (localFanout ++ [EventEffect.busPublish conn.2 a c], none)
        else
          (localFanout,
           some (PyError.attributeError "broadcast_characteristic_update"))
      | none => ([], none)
    | _, _ => ([], none)
  else ([], none)

/-! ## Claim C2: owning-instance lookup -/

/-- The Session-Registry lookup the spec prescribes for routing
(§4.4 step 1, `AgentLocation`): the agent's session row restricted to
non-stale heartbeats, yielding the owning instance.  This is
`get_device_session(db, device_id, include_stale=False)` of
session_repository.py, which `send_request` never calls. -/
def spec_agent_location (sessions : List Session) (d : DeviceId) (now : Time) :
    Option InstanceId :=
  (get_device_session sessions d false now).map (fun s => s.instance_id)

/-- Sessions table right after the agent connected to instance B: the
row `mgr_connect` writes (handler.py stores sessions only — it never
writes a `Device` row or sets any device status). -/
def c2Sessions : List Session :=
  [⟨1, 7, "instance-B", SessionType.device, some "mac-1",
    some "HomeKit Device (mac-1)", 1000⟩]

/-- The router tables in that same state: the `devices` table is empty
because nothing in homecast writes it, while instance B holds an
active slot. -/
def c2RouterDb : RouterDb :=
  ⟨[], [⟨"ab12", some "instance-B", some 1000, some 1000⟩]⟩

/-! ## Claim C5: response-body rewriting (home_app.py / homes_app.py) -/

/-- Substring test (Python `in`) on character lists. -/
def containsSub (pat : List Char) : List Char → Bool
  | [] => pat.isEmpty
  | c :: rest => pat.isPrefixOf (c :: rest) || containsSub pat rest

/-- Left-to-right non-overlapping replacement (Python `str.replace`).
Only nonempty patterns occur at the call sites; an empty pattern leaves
the text unchanged here.  Fuel equal to the text length makes the
recursion structural, so it computes by kernel reduction. -/
def replaceAllAux (pat rep : List Char) : Nat → List Char → List Char
  | 0, hay => hay
  | _ + 1, [] => []
  | fuel + 1, c :: rest =>
    if !pat.isEmpty && pat.isPrefixOf (c :: rest) then
      rep ++ replaceAllAux pat rep fuel ((c :: rest).drop pat.length)
    else
      c :: replaceAllAux pat rep fuel rest

/-- `str.replace` over whole texts. -/
def replaceAll (pat rep hay : List Char) : List Char :=
  replaceAllAux pat rep hay.length hay

/-- `str.replace` on strings. -/
def strReplace (s pat rep : String) : String :=
  ⟨replaceAll pat.data rep.data s.data⟩

/-- The JSON-string escaping applied to the state summary before
splicing: backslashes first, then double quotes. -/
def jsonStringEscape (s : String) : String :=
  strReplace (strReplace s "\\" "\\\\") "\"" "\\\""

/-- ASCII lowercasing of a header name (`name.lower()`), defined over
the character list so it computes by kernel reduction. -/
def strToLower (s : String) : String := ⟨s.data.map Char.toLower⟩

/-- A fully buffered downstream HTTP response. -/
structure HttpResponse where
  status : Nat
  headers : List (String × String)
  body : String
deriving DecidableEq, Repr

/-- The placeholder token of home_app.py. -/
def STATE_PLACEHOLDER : String := "__HOMECAST_STATE__"

/-- The `wrapped_send` rewrite of `HomeScopedApp.__call__` (the
`HomesScopedApp.call_app` wrapper is identical apart from the
placeholder constant): buffer the whole downstream response; only if
the placeholder occurs in the body, splice in the JSON-string-escaped
fresh state read (`home_state`); rewrite the value of any
Content-Length header to the final body length; then send with status
200 — the downstream status is discarded. -/
def wrapped_send (resp : HttpResponse) (home_state : String) : HttpResponse :=
  let present := containsSub STATE_PLACEHOLDER.data resp.body.data
  let body2 :=
    if present
    then strReplace resp.body STATE_PLACEHOLDER (jsonStringEscape home_state)
    else resp.body
  let headers2 := resp.headers.map (fun nv =>
    if strToLower nv.1 = "content-length"
    then ("content-length", toString body2.length) else nv)
  { status := 200, headers := headers2, body := body2 }

/-- A downstream 404 whose body does not contain the placeholder. -/
def c5NotFoundResp : HttpResponse :=
  { status := 404,
    headers := [("content-type", "application/json")],
    body := "not found" }

/-- A 200 response with no Content-Length header and no placeholder. -/
def c5PlainResp : HttpResponse :=
  { status := 200, headers := [("content-type", "application/json")],
    body := "ok" }

/-- A 200 response whose body is exactly the placeholder. -/
def c5PlaceholderResp : HttpResponse :=
  { status := 200, headers := [], body := "__HOMECAST_STATE__" }

/-! ## Theorems -/

/-! ## Theorem for the listener predicate -/

/-- Claim C8: `has_web_listeners(u)` is true iff at least one
listener-type (`WEB`) session row exists for `u` whose `last_heartbeat`
is within the last 120 seconds, regardless of which instance recorded
it; device-type sessions and stale listener sessions never make it
true. -/
theorem c8_has_web_listeners_iff (db : List Session) (uid : UserId) (now : Time) :
    has_web_listeners db uid now = true ↔
      ∃ s ∈ db, s.user_id = uid ∧ s.session_type = SessionType.web ∧
        now - 120 < s.last_heartbeat := by
  unfold has_web_listeners
  rw [List.find?_isSome]
  constructor
  · rintro ⟨s, hs, hp⟩
    simp only [Bool.and_eq_true, beq_iff_eq, decide_eq_true_eq] at hp
    exact ⟨s, hs, hp.1.1, hp.1.2, hp.2⟩
  · rintro ⟨s, hs, h1, h2, h3⟩
    refine ⟨s, hs, ?_⟩
    simp only [Bool.and_eq_true, beq_iff_eq, decide_eq_true_eq]
    exact ⟨⟨h1, h2⟩, h3⟩

/-- `updateSlot` never changes the list of primary keys: the written
row replaces the row that already carried its `slot_name`. -/
theorem updateSlot_names (db : List TopicSlot) (s : TopicSlot) :
    (updateSlot db s).map (fun t => t.slot_name) = db.map (fun t => t.slot_name) := by
  unfold updateSlot
  rw [List.map_map]
  refine List.map_congr_left (fun t _ => ?_)
  by_cases ht : t.slot_name = s.slot_name
  · simp [ht]
  · simp [ht]

/-- Claim C6: `claim_slot(instanceID)` (1) refreshes and returns the row
already naming this `instanceID` when one exists; (2) otherwise takes
over some row that is unowned or whose heartbeat is older than the
5-minute stale window, setting `instance_id`, `claimed_at` and
`last_heartbeat`; (3) otherwise inserts a new row whose token is a
fresh 4-character lowercase-alphanumeric string regenerated until it
avoids a primary-key collision — the three cases tried strictly in
that order. -/
theorem c6_claim_slot_cases (db : List TopicSlot) (iid : InstanceId)
    (now : Time) (candidates : List String) :
    ((∃ s ∈ db, s.instance_id = some iid) →
      ∃ r, claim_slot db iid now candidates = some r ∧
        (∃ s ∈ db, s.instance_id = some iid ∧ r.slot.slot_name = s.slot_name) ∧
        r.slot.instance_id = some iid ∧
        r.slot.claimed_at = some now ∧
        r.slot.last_heartbeat = some now ∧
        r.db.map (fun t => t.slot_name) = db.map (fun t => t.slot_name)) ∧
    ((∀ s ∈ db, s.instance_id ≠ some iid) →
      (∃ s ∈ db, slotFreeOrStale (now - SLOT_TIMEOUT) s = true) →
      ∃ r, claim_slot db iid now candidates = some r ∧
        (∃ s ∈ db, slotFreeOrStale (now - SLOT_TIMEOUT) s = true ∧
          r.slot.slot_name = s.slot_name) ∧
        r.slot.instance_id = some iid ∧
        r.slot.claimed_at = some now ∧
        r.slot.last_heartbeat = some now ∧
        r.db.map (fun t => t.slot_name) = db.map (fun t => t.slot_name)) ∧
    ((∀ s ∈ db, s.instance_id ≠ some iid) →
      (∀ s ∈ db, slotFreeOrStale (now - SLOT_TIMEOUT) s = false) →
      (∃ nm ∈ candidates, ∀ s ∈ db, s.slot_name ≠ nm) →
      ∃ r, claim_slot db iid now candidates = some r ∧
        r.slot.instance_id = some iid ∧
        r.slot.claimed_at = some now ∧
        r.slot.last_heartbeat = some now ∧
        r.slot.slot_name ∈ candidates ∧
        r.slot.slot_name ∉ db.map (fun t => t.slot_name) ∧
        (candidates.all isSlotToken = true → isSlotToken r.slot.slot_name = true) ∧
        r.db.map (fun t => t.slot_name)
          = db.map (fun t => t.slot_name) ++ [r.slot.slot_name]) := by
  refine ⟨?case1, ?case2, ?case3⟩
  case case1 =>
    rintro ⟨s, hs, hown⟩
    have hsome : (db.find? (fun t => t.instance_id == some iid)).isSome := by
      rw [List.find?_isSome]
      exact ⟨s, hs, by simp [hown]⟩
    obtain ⟨e, he⟩ := Option.isSome_iff_exists.mp hsome
    have hpe := List.find?_some he
    simp only [beq_iff_eq] at hpe
    have hme : e ∈ db := List.mem_of_find?_eq_some he
    refine ⟨_, by unfold claim_slot; rw [he], ?_, ?_, rfl, rfl, ?_⟩
    · exact ⟨e, hme, hpe, rfl⟩
    · exact hpe
    · exact updateSlot_names db _
  case case2 =>
    intro hnone hstale
    obtain ⟨s, hs, hfree⟩ := hstale
    have hfind1 : db.find? (fun t => t.instance_id == some iid) = none := by
      rw [List.find?_eq_none]
      intro x hx
      simp only [beq_iff_eq]
      exact hnone x hx
    have hsome : (db.find? (slotFreeOrStale (now - SLOT_TIMEOUT))).isSome := by
      rw [List.find?_isSome]
      exact ⟨s, hs, hfree⟩
    obtain ⟨e, he⟩ := Option.isSome_iff_exists.mp hsome
    have hpe := List.find?_some he
    have hme : e ∈ db := List.mem_of_find?_eq_some he
    refine ⟨_, by unfold claim_slot; rw [hfind1, he], ?_, rfl, rfl, rfl, ?_⟩
    · exact ⟨e, hme, hpe, rfl⟩
    · exact updateSlot_names db _
  case case3 =>
    intro hnone hnostale hfresh
    obtain ⟨nm, hnm, havoid⟩ := hfresh
    have hfind1 : db.find? (fun t => t.instance_id == some iid) = none := by
      rw [List.find?_eq_none]
      intro x hx
      simp only [beq_iff_eq]
      exact hnone x hx
    have hfind2 : db.find? (slotFreeOrStale (now - SLOT_TIMEOUT)) = none := by
      rw [List.find?_eq_none]
      intro x hx
      simp [hnostale x hx]
    have hsome : (candidates.find? (fun n =>
        (db.find? (fun s => s.slot_name == n)).isNone)).isSome := by
      rw [List.find?_isSome]
      refine ⟨nm, hnm, ?_⟩
      simp only [Option.isNone_iff_eq_none, List.find?_eq_none, beq_iff_eq]
      intro x hx
      exact havoid x hx
    obtain ⟨nm2, hnm2⟩ := Option.isSome_iff_exists.mp hsome
    have hp2 := List.find?_some hnm2
    have hmem2 : nm2 ∈ candidates := List.mem_of_find?_eq_some hnm2
    have hnotin : nm2 ∉ db.map (fun t => t.slot_name) := by
      simp only [Option.isNone_iff_eq_none, List.find?_eq_none, beq_iff_eq] at hp2
      intro hmem
      obtain ⟨t, ht, hteq⟩ := List.mem_map.mp hmem
      exact hp2 t ht hteq
    refine ⟨_, by unfold claim_slot; rw [hfind1, hfind2, hnm2], rfl, rfl, rfl,
      hmem2, hnotin, ?_, by simp⟩
    intro hall
    exact List.all_eq_true.mp hall nm2 hmem2

/-- Witness for C6: each of the three `claim_slot` cases is exercised
on a concrete slot table. -/
theorem c6_claim_slot_cases_witness :
    (∃ s ∈ slotDb1, s.instance_id = some "i1") ∧
    (∀ s ∈ slotDb3, s.instance_id ≠ some "i2") ∧
    (∀ s ∈ slotDb3, slotFreeOrStale (1000 - SLOT_TIMEOUT) s = false) ∧
    (∃ r, claim_slot slotDb1 "i1" 1000 [] = some r ∧
      r.slot.last_heartbeat = some 1000) ∧
    (∃ r, claim_slot slotDb2 "i2" 1000 [] = some r ∧
      r.slot.instance_id = some "i2") ∧
    (∃ r, claim_slot slotDb3 "i2" 1000 ["ef56", "gh78"] = some r ∧
      r.slot.slot_name ∉ slotDb3.map (fun t => t.slot_name)) := by
  refine ⟨by decide, by decide, by decide, ?_, ?_, ?_⟩
  · obtain ⟨r, hr, _, _, _, hlh, _⟩ :=
      (c6_claim_slot_cases slotDb1 "i1" 1000 []).1 (by decide)
    exact ⟨r, hr, hlh⟩
  · obtain ⟨r, hr, _, hinst, _⟩ :=
      (c6_claim_slot_cases slotDb2 "i2" 1000 []).2.1 (by decide) (by decide)
    exact ⟨r, hr, hinst⟩
  · obtain ⟨r, hr, _, _, _, _, hnotin, _⟩ :=
      (c6_claim_slot_cases slotDb3 "i2" 1000 ["ef56", "gh78"]).2.2
        (by decide) (by decide) (by decide)
    exact ⟨r, hr, hnotin⟩

/-! ## Correlation lifecycle (claims C1, C9) -/

/-- Claim C1: for every correlation ID issued by a
`Route`/`SendRequest` call, the caller observes the payload or the
error exactly once, or observes TIMEOUT at the deadline; in every case
the pending-correlation entry for that ID is removed from the pending
map when the call returns (the `finally` block); and a reply arriving
after the timeout — its ID no longer pending — is discarded without
effect, as is a duplicate reply into an already-filled one-slot queue.
Stated for both the local `ConnectionManager.send_request` path and the
cross-instance `PubSubRouter.send_request` path. -/
theorem c1_correlation_lifecycle
    (st : SendState) (dev act rid : String) (arrival : Option QueueResult)
    (msg : DeviceFrame) (j : String)
    (pend2 : List (String × PendingRequest)) (pr2 : PendingRequest)
    (msg2 : DeviceFrame) (i2 : String)
    (rdb : RouterDb) (self dev2 act2 cid : String) (ppending : List String)
    (pok : Bool) (arr2 : Option QueueResult)
    (pfut : List PendingFuture) (cid2 : String)
    (hconn : (st.connections.find? (fun c => c.1 == dev)).isSome)
    (hfresh : ∀ kv ∈ st.pending, kv.1 ≠ rid)
    (hjid : msg.id = some j)
    (hjfresh : ∀ kv ∈ st.pending, kv.1 ≠ j)
    (hi2 : msg2.id = some i2)
    (hdup : lookupPending pend2 i2 = some pr2)
    (hfull : pr2.slot.isSome)
    (hcid : ∀ k ∈ ppending, k ≠ cid)
    (hfut : ∀ f ∈ pfut, f.correlation_id ≠ cid2) :
    (send_request st dev act rid arrival).2.pending = st.pending ∧
    (send_request st dev act rid arrival).1 =
      (match arrival with
       | none => SendOutcome.timeout
       | some (QueueResult.err c m) => SendOutcome.errorResp c m
       | some (QueueResult.payload p) => SendOutcome.payload p) ∧
    handle_response st.pending msg = st.pending ∧
    handle_response pend2 msg2 = pend2 ∧
    (pubsub_send_request rdb self dev2 act2 cid ppending pok arr2).2 = ppending ∧
    pubsub_handle_response pfut (some cid2) = pfut := by
  have hne := Option.isSome_iff_ne_none.mp hconn
  have hcond : ¬ ((st.connections.find? (fun c => c.1 == dev)).isNone = true) := by
    simpa [Option.isNone_iff_eq_none] using hne
  have hflt : (st.pending ++
      [(rid, { id := rid, device_id := dev, action := act,
               slot := none : PendingRequest })]).filter
        (fun kv => kv.1 != rid) = st.pending := by
    rw [List.filter_append]
    have h1 : st.pending.filter (fun kv => kv.1 != rid) = st.pending :=
      List.filter_eq_self.mpr (fun kv hkv => by
        simpa [bne_iff_ne] using hfresh kv hkv)
    simp [h1]
  refine ⟨?_, ?_, ?_, ?_, ?_, ?_⟩
  · unfold send_request
    rw [if_neg hcond]
    exact hflt
  · unfold send_request
    rw [if_neg hcond]
  · unfold handle_response
    rw [hjid]
    have hlk : lookupPending st.pending j = none := by
      unfold lookupPending
      rw [List.find?_eq_none.mpr (fun kv hkv => by
        simpa using hjfresh kv hkv)]
      rfl
    dsimp only
    rw [hlk]
  · unfold handle_response
    rw [hi2]
    dsimp only
    rw [hdup]
    obtain ⟨q, hq⟩ := Option.isSome_iff_exists.mp hfull
    dsimp only
    rw [hq]
  · have hflt2 : (ppending ++ [cid]).filter (fun k => k != cid) = ppending := by
      rw [List.filter_append]
      have h1 : ppending.filter (fun k => k != cid) = ppending :=
        List.filter_eq_self.mpr (fun k hk => by
          simpa [bne_iff_ne] using hcid k hk)
      simp [h1]
    unfold pubsub_send_request
    cases hfind : rdb.devices.find? (fun d => d.device_id == dev2) with
    | none => rfl
    | some d =>
      dsimp only
      by_cases hstat : d.status ≠ "online"
      · rw [if_pos hstat]
      · rw [if_neg hstat]
        cases hie : d.instance_id with
        | none => rfl
        | some target =>
          dsimp only
          by_cases hloc : target = self
          · rw [if_pos hloc]
          · rw [if_neg hloc]
            cases hs : get_slot_for_instance rdb.slots target with
            | none => rfl
            | some s =>
              dsimp only
              cases pok with
              | true => exact hflt2
              | false => exact hflt2
  · unfold pubsub_handle_response
    dsimp only
    rw [List.find?_eq_none.mpr (fun f hf => by
      simpa using hfut f hf)]

/-- Witness for C1 on concrete states. -/
theorem c1_correlation_lifecycle_witness :
    (send_request c1State "mac-1" "ping" "r1"
      (some (QueueResult.payload "ok"))).2.pending = [] ∧
    (send_request c1State "mac-1" "ping" "r1"
      (some (QueueResult.payload "ok"))).1 = SendOutcome.payload "ok" ∧
    handle_response [] c1LateMsg = [] ∧
    handle_response c1DupPending c1DupMsg = c1DupPending ∧
    (pubsub_send_request ⟨[], []⟩ "A" "mac-1" "ping" "c1" [] true none).2 = [] ∧
    pubsub_handle_response [] (some "c9") = [] := by
  have h := c1_correlation_lifecycle c1State "mac-1" "ping" "r1"
    (some (QueueResult.payload "ok")) c1LateMsg "r9" c1DupPending
    ⟨"r2", "mac-1", "ping", some (QueueResult.payload "x")⟩ c1DupMsg "r2"
    ⟨[], []⟩ "A" "mac-1" "ping" "c1" [] true none [] "c9"
    (by decide) (by decide) rfl (by decide) rfl (by decide) (by decide)
    (by decide) (by decide)
  exact ⟨h.1, h.2.1, h.2.2.1, h.2.2.2.1, h.2.2.2.2.1, h.2.2.2.2.2⟩

/-- Claim C9: when the bus publish of a cross-instance request fails,
`send_request` fails fast — the outcome is the publish-failure error no
matter what reply might have arrived before the deadline — and the
pending-correlation entry is removed, leaving the pending map as it
was. -/
theorem c9_publish_failure_fails_fast
    (rdb : RouterDb) (self dev act cid : String) (pending : List String)
    (arrival : Option QueueResult) (d : DeviceRow) (target : InstanceId)
    (hfind : rdb.devices.find? (fun x => x.device_id == dev) = some d)
    (hstat : d.status = "online")
    (hinst : d.instance_id = some target)
    (hremote : target ≠ self)
    (hslot : (get_slot_for_instance rdb.slots target).isSome)
    (hfresh : ∀ k ∈ pending, k ≠ cid) :
    pubsub_send_request rdb self dev act cid pending false arrival
      = (RouteOutcome.publishFailed, pending) := by
  obtain ⟨s, hs⟩ := Option.isSome_iff_exists.mp hslot
  have hflt : (pending ++ [cid]).filter (fun k => k != cid) = pending := by
    rw [List.filter_append]
    have h1 : pending.filter (fun k => k != cid) = pending :=
      List.filter_eq_self.mpr (fun k hk => by
        simpa [bne_iff_ne] using hfresh k hk)
    simp [h1]
  unfold pubsub_send_request
  rw [hfind]
  dsimp only
  rw [if_neg (by simp [hstat])]
  rw [hinst]
  dsimp only
  rw [if_neg hremote]
  rw [hs]
  dsimp only
  simp [hflt]

/-- Witness for C9: even with a reply available before the deadline,
a failed publish yields the error immediately and leaves no pending
correlation. -/
theorem c9_publish_failure_fails_fast_witness :
    c9Db.devices.find? (fun x => x.device_id == "mac-1")
      = some ⟨"mac-1", 7, "online", some "instance-B"⟩ ∧
    pubsub_send_request c9Db "instance-A" "mac-1" "ping" "c1" [] false
        (some (QueueResult.payload "late"))
      = (RouteOutcome.publishFailed, []) :=
  ⟨by decide,
   c9_publish_failure_fails_fast c9Db "instance-A" "mac-1" "ping" "c1" []
     (some (QueueResult.payload "late")) ⟨"mac-1", 7, "online", some "instance-B"⟩
     "instance-B" (by decide) rfl rfl (by decide) (by decide) (by decide)⟩

/-! ## Claim C10: invalid bearer token -/

/-- Claim C10: a connect attempt — agent socket or listener socket —
whose bearer token fails verification is accepted and then closed with
code 4001, returns None, and leaves all relay state unchanged: no map
entry, no session row, no notification, no bus message. -/
theorem c10_invalid_token_rejected
    (verify : String → Option UserId)
    (conns : List (DeviceId × UserId)) (sessions : List Session)
    (local_clients : List (SessionId × UserId))
    (agentConns : List (DeviceId × UserId))
    (sid sid2 : SessionId) (iid : InstanceId) (token : String)
    (device_id : DeviceId) (device_name : Option String) (now : Time)
    (hbad : verify token = none) :
    (mgr_connect verify conns sessions sid iid token device_id device_name now
      = { device := none, connections := conns, sessions := sessions,
          socketEvents := [SocketEvent.accept, SocketEvent.close 4001] }) ∧
    (web_connect verify local_clients sessions agentConns sid2 iid token now
      = { client := none, local_clients := local_clients, sessions := sessions,
          socketEvents := [SocketEvent.accept, SocketEvent.close 4001],
          notifications := [], busMessages := [] }) := by
  constructor
  · unfold mgr_connect
    rw [hbad]
  · unfold web_connect
    rw [hbad]

/-- Witness for C10 on concrete states. -/
theorem c10_invalid_token_rejected_witness :
    rejectAllTokens "tok" = none ∧
    mgr_connect rejectAllTokens [] [] 1 "A" "tok" "mac-1" none 1000
      = { device := none, connections := [], sessions := [],
          socketEvents := [SocketEvent.accept, SocketEvent.close 4001] } ∧
    web_connect rejectAllTokens [] [] [] 1 "A" "tok" 1000
      = { client := none, local_clients := [], sessions := [],
          socketEvents := [SocketEvent.accept, SocketEvent.close 4001],
          notifications := [], busMessages := [] } := by
  have h := c10_invalid_token_rejected rejectAllTokens [] [] [] [] 1 1 "A"
    "tok" "mac-1" none 1000 rfl
  exact ⟨rfl, h.1, h.2⟩

/-! ## Claim C7: agent replacement -/

/-- The device-row upsert of `create_session` keeps the sessions table
at exactly one row per device id (given the table's primary keys are
unique and the row was unique before). -/
theorem create_session_device_unique (db : List Session) (sid : SessionId)
    (uid : UserId) (iid : InstanceId) (name : Option String) (now : Time)
    (d : DeviceId) (hnodup : (db.map (fun s => s.id)).Nodup)
    (hle : countSessionsFor db d ≤ 1) :
    countSessionsFor
      (create_session db sid uid iid SessionType.device (some d) name now).db d
      = 1 := by
  unfold create_session
  cases hfind : get_device_session db d true now with
  | none =>
    dsimp only
    rw [hfind]
    dsimp only
    have hfind' : db.find? (fun s => s.device_id == some d) = none := by
      simpa [get_device_session] using hfind
    have h0 : db.filter (fun s => s.device_id == some d) = [] :=
      List.filter_eq_nil_iff.mpr (fun s hs => by
        simpa using List.find?_eq_none.mp hfind' s hs)
    unfold countSessionsFor
    rw [List.filter_append, h0]
    simp
  | some existing =>
    dsimp only
    rw [hfind]
    dsimp only
    have hfind' : db.find? (fun s => s.device_id == some d) = some existing := by
      simpa [get_device_session] using hfind
    have hmem : existing ∈ db := List.mem_of_find?_eq_some hfind'
    have hpd0 := List.find?_some hfind'
    have hpd : (existing.device_id == some d) = true := by simpa using hpd0
    have hinj := List.inj_on_of_nodup_map hnodup
    unfold countSessionsFor
    rw [List.filter_map, List.length_map]
    have hcong : db.filter ((fun s => s.device_id == some d) ∘
        (fun s => if s.id = existing.id
                  then refreshSessionRow existing iid name now else s))
        = db.filter (fun s => s.device_id == some d) := by
      apply List.filter_congr
      intro s hs
      simp only [Function.comp_apply]
      by_cases hid : s.id = existing.id
      · have hse : s = existing := hinj hs hmem hid
        subst hse
        simp [refreshSessionRow]
      · simp [hid]
    rw [hcong]
    have hge : 0 < (db.filter (fun s => s.device_id == some d)).length :=
      List.length_pos_of_mem (List.mem_filter.mpr ⟨hmem, hpd⟩)
    have hle' : (db.filter (fun s => s.device_id == some d)).length ≤ 1 := hle
    omega

/-- Claim C7 (amended): on one process, a second successful connect for
the same `agentID` closes the prior local socket with code 4002, leaves
exactly one local connections-map entry, and the upsert leaves exactly
one session-registry row for that `agentID`; a prior socket held by a
DIFFERENT process is not closed and its map entry survives (see the
counterexample theorem), so global uniqueness holds only for the
registry row, not for sockets. -/
theorem c7_local_agent_replacement
    (verify : String → Option UserId) (conns : List (DeviceId × UserId))
    (sessions : List Session) (sid : SessionId) (iid : InstanceId)
    (token : String) (dev : DeviceId) (dname : Option String) (now : Time)
    (uid : UserId) (hok : verify token = some uid)
    (hnodup : (sessions.map (fun s => s.id)).Nodup)
    (hone : countSessionsFor sessions dev ≤ 1) :
    countConn
      (mgr_connect verify conns sessions sid iid token dev dname now).connections
      dev = 1 ∧
    ((conns.find? (fun c => c.1 == dev)).isSome →
      SocketEvent.closeOld dev 4002 ∈
        (mgr_connect verify conns sessions sid iid token dev dname now).socketEvents) ∧
    countSessionsFor
      (mgr_connect verify conns sessions sid iid token dev dname now).sessions
      dev = 1 := by
  refine ⟨?_, ?_, ?_⟩
  · unfold mgr_connect
    rw [hok]
    dsimp only
    unfold countConn
    rw [List.filter_append, List.filter_filter]
    have h0 : conns.filter (fun c => c.1 == dev && c.1 != dev) = [] :=
      List.filter_eq_nil_iff.mpr (fun c _ => by
        by_cases h : c.1 = dev <;> simp [h])
    rw [h0]
    simp
  · intro hprev
    unfold mgr_connect
    rw [hok]
    dsimp only
    rw [if_pos hprev]
    simp
  · unfold mgr_connect
    rw [hok]
    dsimp only
    exact create_session_device_unique sessions sid uid iid _ now dev hnodup hone

/-- Counterexample to C7 as stated: when the prior socket for the same
`agentID` is held by a different process, a second successful connect
emits no 4002 close at all — the prior process's socket and map entry
survive, so two connections-map entries exist globally at once. -/
theorem c7_counterexample_cross_instance :
    (mgr_connect tokenVerifier7 [] c7Sessions 2 "B" "tok" "mac-1" none
      1000).device.isSome = true ∧
    (mgr_connect tokenVerifier7 [] c7Sessions 2 "B" "tok" "mac-1" none
      1000).socketEvents = [SocketEvent.accept] ∧
    SocketEvent.closeOld "mac-1" 4002 ∉
      (mgr_connect tokenVerifier7 [] c7Sessions 2 "B" "tok" "mac-1" none
        1000).socketEvents ∧
    countConn c7ConnsA "mac-1" +
      countConn (mgr_connect tokenVerifier7 [] c7Sessions 2 "B" "tok" "mac-1"
        none 1000).connections "mac-1" = 2 := by
  decide

/-- Witness for the amended C7 on a same-process reconnect. -/
theorem c7_local_agent_replacement_witness :
    tokenVerifier7 "tok" = some 7 ∧
    countConn
      (mgr_connect tokenVerifier7 c7ConnsA c7Sessions 2 "A" "tok" "mac-1" none
        1000).connections "mac-1" = 1 ∧
    SocketEvent.closeOld "mac-1" 4002 ∈
      (mgr_connect tokenVerifier7 c7ConnsA c7Sessions 2 "A" "tok" "mac-1" none
        1000).socketEvents ∧
    countSessionsFor
      (mgr_connect tokenVerifier7 c7ConnsA c7Sessions 2 "A" "tok" "mac-1" none
        1000).sessions "mac-1" = 1 := by
  have h := c7_local_agent_replacement tokenVerifier7 c7ConnsA c7Sessions 2 "A"
    "tok" "mac-1" none 1000 7 (by decide) (by decide) (by decide)
  exact ⟨rfl, h.1, h.2.1 (by decide), h.2.2⟩

/-! ## Claim C4: listener transitions -/

/-- `_notify_mac_apps` writes exactly one frame per LOCAL agent socket
of the user, and none to any other socket (the agent map's keys are
unique, being a dictionary). -/
theorem notify_count (agentConns : List (DeviceId × UserId)) (uid : UserId)
    (b : Bool) (d : DeviceId)
    (hkeys : (agentConns.map (fun c => c.1)).Nodup) :
    countNotif (notify_mac_apps agentConns uid b) d
      = if (d, uid) ∈ agentConns then 1 else 0 := by
  induction agentConns with
  | nil => simp [countNotif, notify_mac_apps]
  | cons c rest ih =>
    simp only [List.map_cons, List.nodup_cons] at hkeys
    obtain ⟨hcnot, hrest⟩ := hkeys
    have ihr := ih hrest
    unfold countNotif notify_mac_apps at ihr ⊢
    rw [List.filter_cons]
    by_cases hu : (c.2 == uid) = true
    · rw [if_pos hu]
      rw [List.map_cons, List.filter_cons]
      by_cases hd : ((c.1, b).1 == d) = true
      · rw [if_pos hd]
        simp only [beq_iff_eq] at hu hd
        have hc : c = (d, uid) := by
          cases c
          simp_all
        have hnotin : (d, uid) ∉ rest := by
          intro hmem
          apply hcnot
          rw [show c.1 = d from hd]
          exact List.mem_map.mpr ⟨(d, uid), hmem, rfl⟩
        have hmem' : (d, uid) ∈ c :: rest := by
          rw [hc]
          exact List.mem_cons_self _ _
        rw [if_pos hmem', List.length_cons, ihr, if_neg hnotin]
      · rw [if_neg hd]
        simp only [beq_iff_eq] at hu hd
        have hmemiff : ((d, uid) ∈ c :: rest) ↔ ((d, uid) ∈ rest) := by
          constructor
          · intro h
            rcases List.mem_cons.mp h with h1 | h2
            · exfalso
              apply hd
              rw [← h1]
            · exact h2
          · exact fun h => List.mem_cons_of_mem c h
        rw [ihr]
        simp only [hmemiff]
    · rw [if_neg hu]
      simp only [beq_iff_eq] at hu
      have hmemiff : ((d, uid) ∈ c :: rest) ↔ ((d, uid) ∈ rest) := by
        constructor
        · intro h
          rcases List.mem_cons.mp h with h1 | h2
          · exfalso
            apply hu
            rw [← h1]
          · exact h2
        · exact fun h => List.mem_cons_of_mem c h
      rw [ihr]
      simp only [hmemiff]

/-- Claim C4 (amended): a listener 0-to-1 activation (on connect) or
1-to-0 deactivation (on disconnect) fires `_notify_mac_apps`, which
writes exactly one `listeners_changed` frame per agent socket held on
the LOCAL process and publishes no bus message; agents held on remote
processes therefore receive nothing (see the counterexample
theorem). -/
theorem c4_listener_transition_local_only
    (agentConns : List (DeviceId × UserId)) (uid : UserId) (b : Bool)
    (d : DeviceId) (verify : String → Option UserId)
    (local_clients : List (SessionId × UserId)) (sessions : List Session)
    (sid : SessionId) (iid : InstanceId) (token : String) (now : Time)
    (client : SessionId × UserId)
    (hkeys : (agentConns.map (fun c => c.1)).Nodup) :
    countNotif (notify_mac_apps agentConns uid b) d
      = (if (d, uid) ∈ agentConns then 1 else 0) ∧
    (web_connect verify local_clients sessions agentConns sid iid token
      now).busMessages = [] ∧
    (web_connect verify local_clients sessions agentConns sid iid token
      now).notifications
      = (match verify token with
         | none => []
         | some u =>
           if has_web_listeners sessions u now then []
           else notify_mac_apps agentConns u true) ∧
    (web_disconnect local_clients sessions agentConns client now).busMessages
      = [] ∧
    (web_disconnect local_clients sessions agentConns client now).notifications
      = (if has_web_listeners (delete_session sessions client.1) client.2 now
         then [] else notify_mac_apps agentConns client.2 false) := by
  refine ⟨notify_count agentConns uid b d hkeys, ?_, ?_, rfl, rfl⟩
  · unfold web_connect
    cases verify token with
    | none => rfl
    | some u => rfl
  · unfold web_connect
    cases hv : verify token with
    | none => rfl
    | some u => rfl

/-- Counterexample to C4 as stated: user 7's only agent is held on a
remote process.  A listener connects here (a 0-to-1 activation: the
connect succeeds and the user had no listeners), yet no
`listeners_changed` frame is written — the write loop only covers local
sockets, of which there are none — and no bus message is published, so
the remote agent receives zero notifications instead of exactly one. -/
theorem c4_counterexample_remote_agent_not_notified :
    ("mac-r", 7) ∈ remoteAgentConns ∧
    has_web_listeners [] 7 1000 = false ∧
    (web_connect tokenVerifier7 [] [] [] 5 "A" "tok" 1000).client.isSome
      = true ∧
    (web_connect tokenVerifier7 [] [] [] 5 "A" "tok" 1000).notifications
      = [] ∧
    (web_connect tokenVerifier7 [] [] [] 5 "A" "tok" 1000).busMessages
      = [] := by
  decide

/-- Witness for the amended C4: one local agent, notified exactly
once on a 0-to-1 activation. -/
theorem c4_listener_transition_local_only_witness :
    ([(("mac-1" : DeviceId), (7 : UserId))].map (fun c => c.1)).Nodup ∧
    countNotif (notify_mac_apps [("mac-1", 7)] 7 true) "mac-1" = 1 ∧
    (web_connect tokenVerifier7 [] [] [("mac-1", 7)] 5 "A" "tok"
      1000).notifications = notify_mac_apps [("mac-1", 7)] 7 true ∧
    (web_connect tokenVerifier7 [] [] [("mac-1", 7)] 5 "A" "tok"
      1000).busMessages = [] := by
  have h := c4_listener_transition_local_only [("mac-1", 7)] 7 true "mac-1"
    tokenVerifier7 [] [] 5 "A" "tok" 1000 (9, 7) (by decide)
  refine ⟨by decide, ?_, ?_, h.2.1⟩
  · rw [h.1]
    decide
  · rw [h.2.2.1]
    decide

/-- Claim C3 fails on the code: for a well-formed
`characteristic.updated` event from a connected agent, the local hub
broadcast happens, but the bus publish does not — `PubSubRouter`
defines no `broadcast_characteristic_update` method, so the call in
`ConnectionManager._handle_event` raises AttributeError instead of
publishing the event for other processes. -/
theorem c3_event_bus_publish_missing :
    handle_event [("mac-1", 7)] "mac-1" (some "characteristic.updated")
        (some "acc-1") (some "brightness")
      = ([EventEffect.localBroadcast 7 "acc-1" "brightness"],
         some (PyError.attributeError "broadcast_characteristic_update")) ∧
    ∀ conns dev act a c,
      EventEffect.busPublish 7 "acc-1" "brightness"
        ∉ (handle_event conns dev act a c).1 := by
  refine ⟨by decide, ?_⟩
  intro conns dev act a c
  unfold handle_event
  by_cases hact : (act == some "characteristic.updated") = true
  · rw [if_pos hact]
    match a, c with
    | some a0, some c0 =>
      cases hfind : conns.find? (fun x => x.1 == dev) with
      | none => simp
      | some conn =>
        dsimp only
        rw [if_neg (by decide)]
        simp
    | none, some c0 => simp
    | some a0, none => simp
    | none, none => simp
  · rw [if_neg hact]
    simp

/-- Claim C2 fails on the code: `PubSubRouter.send_request` resolves
the agent's owner from the legacy `Device` table
(`DeviceRepository.find_by_device_id`, `status == "online"`), not from
the Session Registry.  After an agent connects — which records only a
session row — the session registry locates the agent on instance B,
whose slot is active, yet `send_request` raises "Device not connected"
before publishing anything, for every possible reply and publish
outcome. -/
theorem c2_router_ignores_session_registry :
    (mgr_connect tokenVerifier7 [] [] 1 "instance-B" "tok" "mac-1" none
      1000).sessions = c2Sessions ∧
    spec_agent_location c2Sessions "mac-1" 1000 = some "instance-B" ∧
    get_slot_for_instance c2RouterDb.slots "instance-B" ≠ none ∧
    ∀ (publishOk : Bool) (arrival : Option QueueResult)
      (cid : String) (pending : List String),
      (pubsub_send_request c2RouterDb "instance-A" "mac-1" "ping" cid pending
        publishOk arrival).1 = RouteOutcome.notConnectedError := by
  refine ⟨by decide, by decide, by decide, ?_⟩
  intro publishOk arrival cid pending
  rfl

/-- Claim C5 (amended): if the buffered body contains the placeholder,
the fresh state read is JSON-string-escaped and spliced in, with
Content-Length recomputed; if the placeholder is absent, the body is
forwarded unchanged and no splice occurs — but in both cases the
response status is rewritten to 200 and any Content-Length header value
is recomputed, so the full response is forwarded untouched only when it
already had status 200 and an accurate Content-Length. -/
theorem c5_rewrite_wrapper (resp : HttpResponse) (home_state : String) :
    (wrapped_send resp home_state).status = 200 ∧
    (containsSub STATE_PLACEHOLDER.data resp.body.data = false →
      (wrapped_send resp home_state).body = resp.body) ∧
    (containsSub STATE_PLACEHOLDER.data resp.body.data = true →
      (wrapped_send resp home_state).body
        = strReplace resp.body STATE_PLACEHOLDER (jsonStringEscape home_state)) ∧
    (resp.status = 200 →
      (∀ nv ∈ resp.headers, strToLower nv.1 = "content-length" →
        nv = ("content-length", toString resp.body.length)) →
      containsSub STATE_PLACEHOLDER.data resp.body.data = false →
      wrapped_send resp home_state = resp) := by
  refine ⟨rfl, ?_, ?_, ?_⟩
  · intro habs
    unfold wrapped_send
    simp [habs]
  · intro hpres
    unfold wrapped_send
    simp [hpres]
  · intro h200 hcl habs
    unfold wrapped_send
    simp only [habs, if_neg Bool.false_ne_true]
    have hmap : resp.headers.map (fun nv =>
        if strToLower nv.1 = "content-length"
        then (("content-length" : String), toString resp.body.length) else nv)
        = resp.headers.map (fun nv => nv) := by
      refine List.map_congr_left (fun nv hnv => ?_)
      by_cases hlow : strToLower nv.1 = "content-length"
      · rw [if_pos hlow, hcl nv hnv hlow]
      · rw [if_neg hlow]
    rw [hmap, List.map_id']
    cases resp with
    | mk st hd bd =>
      simp only at h200
      rw [h200]

/-- Counterexample to C5 as stated: the placeholder is absent, yet the
response is not forwarded untouched — the wrapper rewrites the
downstream 404 status to 200. -/
theorem c5_counterexample_status_rewritten :
    containsSub STATE_PLACEHOLDER.data c5NotFoundResp.body.data = false ∧
    c5NotFoundResp.status = 404 ∧
    (wrapped_send c5NotFoundResp "st").status = 200 ∧
    wrapped_send c5NotFoundResp "st" ≠ c5NotFoundResp := by
  refine ⟨by decide, rfl, rfl, ?_⟩
  intro h
  have hst := congrArg HttpResponse.status h
  exact absurd hst (by decide)

/-- Witness for the amended C5 on concrete responses. -/
theorem c5_rewrite_wrapper_witness :
    containsSub STATE_PLACEHOLDER.data c5PlainResp.body.data = false ∧
    (wrapped_send c5PlainResp "st").body = c5PlainResp.body ∧
    wrapped_send c5PlainResp "st" = c5PlainResp ∧
    containsSub STATE_PLACEHOLDER.data c5PlaceholderResp.body.data = true ∧
    (wrapped_send c5PlaceholderResp "st").body
      = strReplace c5PlaceholderResp.body STATE_PLACEHOLDER
          (jsonStringEscape "st") := by
  have h1 := c5_rewrite_wrapper c5PlainResp "st"
  have h2 := c5_rewrite_wrapper c5PlaceholderResp "st"
  refine ⟨by decide, h1.2.1 (by decide), h1.2.2.2 rfl ?_ (by decide),
    by decide, h2.2.2.1 (by decide)⟩
  intro nv hnv hlow
  have hnv' : nv = ("content-type", "application/json") := by
    simpa [c5PlainResp] using hnv
  rw [hnv'] at hlow
  exact absurd hlow (by decide)

end HomeCast
